import Mathlib

/-!
Verification of the Nutrition Estimation & Daily Log Engine of the NutriBuddy
application (src/app/page.tsx), as a shallow embedding in Lean 4.

JavaScript numbers are modelled as exact rationals (ℚ); `Math.round` is
modelled by `jsRound` (floor of x + 1/2, which is JavaScript's half-up
rounding, including for negative halves).  Strings are lists of characters;
the four regular expressions of `parseNutrientsFromText` are embedded by a
small backtracking matcher (`matchSeq` / `findNum`) with JavaScript
leftmost-match, greedy-with-backtracking semantics for the bounded digit
group, which is the only capture group in any of them.
-/

namespace NutriBuddy

/-- JavaScript `Math.round`: round half toward positive infinity. -/
def jsRound (q : ℚ) : ℤ := ⌊q + 1/2⌋

/-- JavaScript `a || b` on numbers: `b` when `a` is falsy (zero), else `a`. -/
def jsOr (a b : ℚ) : ℚ := if a = 0 then b else a

/-- JavaScript `\s` character class (whitespace as used by the regexes). -/
def jsWhitespace (c : Char) : Bool :=
  c = ' ' || c = '\t' || c = '\n' || c = '\r' || c.val = 11 || c.val = 12 ||
  c.val = 0xa0 || c.val = 0x1680 || (0x2000 ≤ c.val && c.val ≤ 0x200a) ||
  c.val = 0x2028 || c.val = 0x2029 || c.val = 0x202f || c.val = 0x205f ||
  c.val = 0x3000 || c.val = 0xfeff

/-- Elements of the (suffix part of the) regex patterns used by the source:
a literal, an optional single whitespace `\s?`, or an optional keyword
alternation `(?:a|b|c)?`. -/
inductive RE where
  | lit : List Char → RE
  | wsOpt : RE
  | optAlt : List (List Char) → RE

/-- Strip a literal from the front of the input, or fail. -/
def dropLit : List Char → List Char → Option (List Char)
  | [], s => some s
  | _ :: _, [] => none
  | c :: cs, d :: ds => if c = d then dropLit cs ds else none

/-- Backtracking matcher: does the sequence of pattern elements match a
prefix of the input?  Mirrors the JavaScript engine on these patterns
(`\s?` and `(?:…)?` are greedy but both alternatives are tried). -/
def matchSeq : List RE → List Char → Bool
  | [], _ => true
  | RE.lit cs :: ps, s =>
      match dropLit cs s with
      | some s2 => matchSeq ps s2
      | none => false
  | RE.wsOpt :: ps, s =>
      (match s with
       | c :: rest => jsWhitespace c && matchSeq ps rest
       | [] => false) || matchSeq ps s
  | RE.optAlt alts :: ps, s =>
      alts.any (fun a =>
        match dropLit a s with
        | some s2 => matchSeq ps s2
        | none => false) || matchSeq ps s

/-- Number of leading decimal digits of the input. -/
def digitCount : List Char → ℕ
  | [] => 0
  | c :: cs => if c.isDigit then digitCount cs + 1 else 0

/-- Numeric value of a digit string (what `Number(match[1])` yields). -/
def natOfDigitsAux : ℕ → List Char → ℕ
  | acc, [] => acc
  | acc, c :: cs => natOfDigitsAux (acc * 10 + (c.toNat - 48)) cs

def natOfDigits (ds : List Char) : ℕ := natOfDigitsAux 0 ds

/-- The list hi, hi-1, …, lo (empty when hi < lo): the order in which a
greedy bounded repetition tries capture lengths. -/
def descRange (lo hi : ℕ) : List ℕ := (List.range' lo (hi + 1 - lo)).reverse

/-- Try to match `(\d{lo,hi})` followed by `tail` at the start of `s`,
returning the numeric value of the capture group.  The digit group is
greedy and backtracks: longer captures are tried first. -/
def tryNumAt (lo hi : ℕ) (tail : List RE) (s : List Char) : Option ℕ :=
  let avail := min (digitCount s) hi
  (descRange lo avail).findSome? fun n =>
    if matchSeq tail (s.drop n) then some (natOfDigits (s.take n)) else none

/-- Leftmost match: try each start position from the left, as
`String.prototype.match` does for a non-global, non-anchored regex. -/
def findNum (lo hi : ℕ) (tail : List RE) : List Char → Option ℕ
  | [] => none
  | c :: rest =>
      match tryNumAt lo hi tail (c :: rest) with
      | some v => some v
      | none => findNum lo hi tail rest

/-- Tail of `/(\d{2,5})\s?kcal/`. -/
def kcalTail : List RE := [RE.wsOpt, RE.lit ['k', 'c', 'a', 'l']]

/-- Tail of `/(\d{1,4})\s?g\s?(?:protein)?/`. -/
def proteinTail : List RE :=
  [RE.wsOpt, RE.lit ['g'], RE.wsOpt,
   RE.optAlt [['p', 'r', 'o', 't', 'e', 'i', 'n']]]

/-- Tail of `/(\d{1,4})\s?g\s?(?:carb|carbs|carbohydrate)?/`. -/
def carbsTail : List RE :=
  [RE.wsOpt, RE.lit ['g'], RE.wsOpt,
   RE.optAlt [['c', 'a', 'r', 'b'], ['c', 'a', 'r', 'b', 's'],
              ['c', 'a', 'r', 'b', 'o', 'h', 'y', 'd', 'r', 'a', 't', 'e']]]

/-- Tail of `/(\d{1,4})\s?g\s?(?:fat)?/`. -/
def fatTail : List RE :=
  [RE.wsOpt, RE.lit ['g'], RE.wsOpt, RE.optAlt [['f', 'a', 't']]]

/-- The shared mandatory part of the three macro regexes:
`(\d{1,4})\s?g` with nothing after it. -/
def gramTail : List RE := [RE.wsOpt, RE.lit ['g']]

/-- Value of the leftmost `(\d{1,4})\s?g` match in a string. -/
def leftmostGram (s : List Char) : Option ℕ := findNum 1 4 gramTail s

/-- `text.toLowerCase()` (ASCII letters, which the patterns consist of). -/
def lowerStr (s : List Char) : List Char := s.map Char.toLower

/-- Result of `parseNutrientsFromText`: each field is the capture of the
corresponding regex, or null when the regex did not match. -/
structure ParseResult where
  kcal : Option ℕ
  protein : Option ℕ
  carbs : Option ℕ
  fat : Option ℕ
deriving DecidableEq

/-- Embedding of `parseNutrientsFromText` (src/app/page.tsx lines 116-130):
returns null for falsy (empty) text, otherwise lowercases the text and runs
the four regexes independently. -/
def parseNutrientsFromText (s : List Char) : Option ParseResult :=
  if s = [] then none
  else
    let lower := lowerStr s
    some
      { kcal := findNum 2 5 kcalTail lower
        protein := findNum 1 4 proteinTail lower
        carbs := findNum 1 4 carbsTail lower
        fat := findNum 1 4 fatTail lower }

/-- Daily goal targets (`Goals` in the source).  Fields are JavaScript
numbers: goals can be user-overridden through number inputs, so nothing
constrains them to be non-negative integers. -/
structure Goals where
  kcal : ℚ
  proteinG : ℚ
  carbsG : ℚ
  fatG : ℚ
deriving DecidableEq

/-- JavaScript truthiness of a nullable number: null and 0 are falsy. -/
def truthyN : Option ℕ → Bool
  | none => false
  | some n => n != 0

/-- `x || 0` for a nullable number, as used for the parsed macro values. -/
def orZeroN : Option ℕ → ℚ
  | none => 0
  | some n => n

/-- The condition of the first branch of `parseAndAddFromText`
(page.tsx line 383): `kcal && (!protein && !carbs && !fat)`. -/
def branch1Cond (p : ParseResult) : Bool :=
  truthyN p.kcal && !truthyN p.protein && !truthyN p.carbs && !truthyN p.fat

/-- Value of the `kcal` variable after line 396:
`if (!kcal) kcal = (protein || 0) * 4 + (carbs || 0) * 4 + (fat || 0) * 9`. -/
def derivedKcal (p : ParseResult) : ℚ :=
  if truthyN p.kcal then orZeroN p.kcal
  else orZeroN p.protein * 4 + orZeroN p.carbs * 4 + orZeroN p.fat * 9

/-- Guard of the partial-macro distribution block (page.tsx line 400):
`kcal && (missingProtein || missingCarbs || missingFat)`, where the
missing flags are `== null` checks on the parsed values. -/
def missingGuard (p : ParseResult) : Bool :=
  decide (derivedKcal p ≠ 0) &&
    (p.protein.isNone || p.carbs.isNone || p.fat.isNone)

/-- Final normalization of one field (page.tsx lines 418-421):
`v ? Math.round(v) : 0`. -/
def finalizeQ (q : ℚ) : ℤ := if q = 0 then 0 else jsRound q

/-- Final normalization of a still-nullable field. -/
def finalizeO : Option ℚ → ℤ
  | none => 0
  | some q => finalizeQ q

/-- A parsed (natural number) field viewed as a nullable JavaScript number. -/
def natCastO (x : Option ℕ) : Option ℚ :=
  x.map (fun n : ℕ => ((n : ℕ) : ℚ))

/-- The record handed to `addToTodayLog`: four integers, since every field
went through `Math.round` (or was set to the integer 0). -/
structure NutrientRecord where
  kcal : ℤ
  protein : ℤ
  carbs : ℤ
  fat : ℤ
deriving DecidableEq

/-- Embedding of the computation part of `parseAndAddFromText`
(src/app/page.tsx lines 380-423): branch 1 splits a lone calorie figure by
the goals' macro-calorie shares; otherwise kcal is derived from the macros
when absent and the partial-macro block back-fills missing macros from goal
shares; finally every field is normalized with `v ? Math.round(v) : 0`. -/
def extractCompute (p : ParseResult) (g : Goals) : NutrientRecord :=
  if branch1Cond p then
    let k : ℚ := orZeroN p.kcal
    let totalGoalCals := jsOr g.kcal 2000
    let proteinCals := jsOr g.proteinG 0 * 4
    let fatCals := jsOr g.fatG 0 * 9
    let carbsCals := totalGoalCals - proteinCals - fatCals
    let pFrac := proteinCals / totalGoalCals
    let fFrac := fatCals / totalGoalCals
    let cFrac := carbsCals / totalGoalCals
    { kcal := finalizeQ k
      protein := finalizeO (some ((jsRound (k * pFrac / 4) : ℤ) : ℚ))
      carbs := finalizeO (some ((jsRound (k * cFrac / 4) : ℤ) : ℚ))
      fat := finalizeO (some ((jsRound (k * fFrac / 9) : ℤ) : ℚ)) }
  else
    let kcal1 : ℚ := derivedKcal p
    let protein1 : Option ℚ := natCastO p.protein
    let carbs1 : Option ℚ := natCastO p.carbs
    let fat1 : Option ℚ := natCastO p.fat
    if missingGuard p then
      let used := orZeroN p.protein * 4 + orZeroN p.carbs * 4 +
        orZeroN p.fat * 9
      let remainingCals : ℚ := max 0 (jsOr kcal1 0 - used)
      let goalProteinCals := jsOr g.proteinG 0 * 4
      let goalCarbCals := jsOr g.carbsG 0 * 4
      let goalFatCals := jsOr g.fatG 0 * 9
      let goalSum := goalProteinCals + goalCarbCals + goalFatCals
      if goalSum > 0 then
        let pShare := if p.protein.isNone then goalProteinCals / goalSum else 0
        let cShare := if p.carbs.isNone then goalCarbCals / goalSum else 0
        let fShare := if p.fat.isNone then goalFatCals / goalSum else 0
        let protein2 := if p.protein.isNone
          then some ((jsRound (remainingCals * pShare / 4) : ℤ) : ℚ)
          else protein1
        let carbs2 := if p.carbs.isNone
          then some ((jsRound (remainingCals * cShare / 4) : ℤ) : ℚ)
          else carbs1
        let fat2 := if p.fat.isNone
          then some ((jsRound (remainingCals * fShare / 9) : ℤ) : ℚ)
          else fat1
        { kcal := finalizeQ kcal1, protein := finalizeO protein2
          carbs := finalizeO carbs2, fat := finalizeO fat2 }
      else
        { kcal := finalizeQ kcal1, protein := finalizeO protein1
          carbs := finalizeO carbs1, fat := finalizeO fat1 }
    else
      { kcal := finalizeQ kcal1, protein := finalizeO protein1
        carbs := finalizeO carbs1, fat := finalizeO fat1 }

/-- The extraction pipeline of `parseAndAddFromText` (lines 369-423): the
`!text` guard, the parse, the never-taken `!parsed` guard, then the
numeric computation; the result is the record handed to `addToTodayLog`. -/
def extractNutrients (s : List Char) (g : Goals) : Option NutrientRecord :=
  if s = [] then none
  else
    match parseNutrientsFromText s with
    | none => none
    | some p => some (extractCompute p g)

/-- The rolling per-day log (`TodayLog` in the source).  Numeric fields are
JavaScript numbers as `addToTodayLog` reads them back from storage. -/
structure TodayLog where
  dateIso : String
  kcal : ℚ
  protein : ℚ
  carbs : ℚ
  fat : ℚ
deriving DecidableEq

/-- The zeroed log stamped with a date, as built by `loadTodayLog` and
`resetTodayLog`. -/
def zeroLog (today : String) : TodayLog := ⟨today, 0, 0, 0, 0⟩

/-- Embedding of `loadTodayLog` (page.tsx lines 151-161): `stored` is the
parsed localStorage snapshot (none for a missing or unreadable entry);
a snapshot whose `dateIso` differs from today is replaced by a zeroed log. -/
def loadTodayLog (stored : Option TodayLog) (today : String) : TodayLog :=
  match stored with
  | none => zeroLog today
  | some parsed => if parsed.dateIso ≠ today then zeroLog today else parsed

/-- The argument record of `addToTodayLog` (its fields default to 0 at the
JavaScript call boundary; call sites in the engine always pass all four). -/
structure AddArgs where
  kcal : ℚ
  protein : ℚ
  carbs : ℚ
  fat : ℚ
deriving DecidableEq

/-- Embedding of `addToTodayLog` (page.tsx lines 356-367): reload the
current log (with rollover), then add the record's fields with `x || 0`
guards, rounding each sum. -/
def addToTodayLog (stored : Option TodayLog) (today : String)
    (r : AddArgs) : TodayLog :=
  let current := loadTodayLog stored today
  { dateIso := today
    kcal := ((jsRound (jsOr current.kcal 0 + jsOr r.kcal 0) : ℤ) : ℚ)
    protein := ((jsRound (jsOr current.protein 0 + jsOr r.protein 0) : ℤ) : ℚ)
    carbs := ((jsRound (jsOr current.carbs 0 + jsOr r.carbs 0) : ℤ) : ℚ)
    fat := ((jsRound (jsOr current.fat 0 + jsOr r.fat 0) : ℤ) : ℚ) }

/-- User profile after the numeric coercions at the top of
`estimateGoalsFromProfile`: `Number(profile.weightKg) || null` yields
either null (absent, zero, or non-numeric input) or a nonzero number; the
same for height; `Number(profile.age) || 30` likewise, with `none`
standing for the falsy case that the code maps to the default 30. -/
structure Profile where
  weightKg : Option ℚ
  heightCm : Option ℚ
  age : Option ℚ
  activity : String

/-- JavaScript truthiness of a nullable rational. -/
def truthyQ : Option ℚ → Bool
  | none => false
  | some v => v != 0

/-- `x || d` for a nullable number. -/
def numOr (x : Option ℚ) (d : ℚ) : ℚ :=
  match x with
  | none => d
  | some v => if v = 0 then d else v

/-- Embedding of `computeBMR` (page.tsx lines 68-72): null when any input
is falsy, else the rounded Mifflin-St Jeor value. -/
def computeBMR (w h a : ℚ) : Option ℤ :=
  if w = 0 ∨ h = 0 ∨ a = 0 then none
  else some (jsRound (10 * w + 25/4 * h - 5 * a + 5))

/-- Embedding of `activityMultiplier` (page.tsx lines 74-87): switch on the
lowercased activity string, defaulting to the moderate multiplier. -/
def activityMultiplier (activity : String) : ℚ :=
  let s := lowerStr activity.toList
  if s = "sedentary".toList then 6/5
  else if s = "light".toList then 11/8
  else if s = "moderate".toList then 31/20
  else if s = "active".toList then 69/40
  else 31/20

/-- The `bmr` local of `estimateGoalsFromProfile` (line 95):
`computeBMR(weight || 70, height || 170, age) || 1500`. -/
def effBMR (p : Profile) : ℤ :=
  match computeBMR (numOr p.weightKg 70) (numOr p.heightCm 170)
      (numOr p.age 30) with
  | none => 1500
  | some b => if b = 0 then 1500 else b

/-- The `kcal` local of `estimateGoalsFromProfile` (line 96). -/
def goalKcal (p : Profile) : ℤ :=
  jsRound ((effBMR p : ℚ) * activityMultiplier p.activity)

/-- The `proteinG` local (line 98): bodyweight-based when a weight is
stated (truthy), else a quarter of the calories at 4 kcal per gram. -/
def goalProteinG (p : Profile) : ℤ :=
  if truthyQ p.weightKg then jsRound (p.weightKg.getD 0 * (8/5))
  else jsRound ((goalKcal p : ℚ) * (1/4) / 4)

/-- The `fatG` local (line 99). -/
def goalFatG (p : Profile) : ℤ :=
  jsRound ((goalKcal p : ℚ) * (1/4) / 9)

/-- The `carbsG` local (lines 100-101): the remainder at 4 kcal per gram
when positive, else the 45 percent fallback. -/
def goalCarbsG (p : Profile) : ℤ :=
  let remainingCalories := goalKcal p - goalProteinG p * 4 - goalFatG p * 9
  if remainingCalories > 0 then jsRound ((remainingCalories : ℚ) / 4)
  else jsRound ((goalKcal p : ℚ) * (9/20) / 4)

/-- Embedding of `estimateGoalsFromProfile` (page.tsx lines 89-109). -/
def estimateGoalsFromProfile (p : Profile) : Goals :=
  { kcal := ((goalKcal p : ℤ) : ℚ)
    proteinG := ((goalProteinG p : ℤ) : ℚ)
    carbsG := ((goalCarbsG p : ℤ) : ℚ)
    fatG := ((goalFatG p : ℤ) : ℚ) }

/-! Concrete inputs used by the claims. -/

/-- The goals fixture of the specification's extractor test. -/
def sampleGoals : Goals := ⟨2000, 150, 200, 56⟩

/-- User-overridden goals whose protein and fat calories exceed the
calorie goal (1600 + 900 > 2000). -/
def skewedGoals : Goals := ⟨2000, 400, 0, 100⟩

/-- A profile with no stated weight, height or age. -/
def defaultProfile : Profile := ⟨none, none, none, "Moderate"⟩

/-- A profile with an extreme stated age. -/
def extremeAgeProfile : Profile := ⟨some 70, some 170, some 400, "Moderate"⟩

/-- A stated-weight profile with a high age and no stated height. -/
def heavyOldProfile : Profile := ⟨some 70, none, some 280, "Moderate"⟩

/-! General lemmas about the embedded operations. -/

theorem jsOr_zero (x : ℚ) : jsOr x 0 = x := by
  unfold jsOr
  split <;> simp_all

theorem jsRound_intCast (n : ℤ) : jsRound ((n : ℤ) : ℚ) = n := by
  unfold jsRound
  rw [Int.floor_eq_iff]
  constructor <;> norm_num

theorem jsRound_le (q : ℚ) : ((jsRound q : ℤ) : ℚ) ≤ q + 1/2 :=
  Int.floor_le _

theorem jsRound_nonneg {q : ℚ} (h : 0 ≤ q) : 0 ≤ jsRound q :=
  Int.le_floor.mpr (by push_cast; linarith)

theorem jsRound_one_le {q : ℚ} (h : 1/2 ≤ q) : 1 ≤ jsRound q :=
  Int.le_floor.mpr (by push_cast; linarith)

theorem activityMultiplier_lb (a : String) : 6/5 ≤ activityMultiplier a := by
  simp only [activityMultiplier]
  split_ifs <;> norm_num

/-! The three macro regexes share the mandatory pattern `(\d{1,4})\s?g`;
their optional keyword suffix is the last element of the pattern, so it
can always match the empty string and neither whether a position matches
nor the captured digits depend on it. -/

theorem matchSeq_wsOpt_optAlt (kws : List (List Char)) (t : List Char) :
    matchSeq [RE.wsOpt, RE.optAlt kws] t = true := by
  cases t <;> simp [matchSeq]

theorem matchSeq_macroTail (kws : List (List Char)) (t : List Char) :
    matchSeq (RE.wsOpt :: RE.lit ['g'] :: RE.wsOpt :: RE.optAlt kws :: []) t
      = matchSeq gramTail t := by
  unfold gramTail
  cases t <;> simp [matchSeq]

theorem tryNumAt_tail_congr (lo hi : ℕ) (t1 t2 : List RE)
    (h : ∀ u, matchSeq t1 u = matchSeq t2 u) (s : List Char) :
    tryNumAt lo hi t1 s = tryNumAt lo hi t2 s := by
  unfold tryNumAt
  have hf : (fun n => if matchSeq t1 (s.drop n)
        then some (natOfDigits (s.take n)) else none)
      = (fun n => if matchSeq t2 (s.drop n)
        then some (natOfDigits (s.take n)) else none) := by
    funext n
    rw [h]
  rw [hf]

theorem findNum_tail_congr (lo hi : ℕ) (t1 t2 : List RE)
    (h : ∀ u, matchSeq t1 u = matchSeq t2 u) :
    ∀ s, findNum lo hi t1 s = findNum lo hi t2 s := by
  intro s
  induction s with
  | nil => rfl
  | cons c rest ih =>
      simp only [findNum]
      rw [tryNumAt_tail_congr lo hi t1 t2 h]
      cases tryNumAt lo hi t2 (c :: rest) <;> simp [ih]

theorem findNum_proteinTail (s : List Char) :
    findNum 1 4 proteinTail s = leftmostGram s :=
  findNum_tail_congr 1 4 proteinTail gramTail
    (fun u => matchSeq_macroTail _ u) s

theorem findNum_carbsTail (s : List Char) :
    findNum 1 4 carbsTail s = leftmostGram s :=
  findNum_tail_congr 1 4 carbsTail gramTail
    (fun u => matchSeq_macroTail _ u) s

theorem findNum_fatTail (s : List Char) :
    findNum 1 4 fatTail s = leftmostGram s :=
  findNum_tail_congr 1 4 fatTail gramTail
    (fun u => matchSeq_macroTail _ u) s

theorem parse_macros_eq_leftmostGram (s : List Char) (p : ParseResult)
    (h : parseNutrientsFromText s = some p) :
    p.protein = leftmostGram (lowerStr s) ∧
      p.carbs = leftmostGram (lowerStr s) ∧
      p.fat = leftmostGram (lowerStr s) := by
  unfold parseNutrientsFromText at h
  split at h
  · exact absurd h (by simp)
  · rw [Option.some_inj] at h
    subst h
    exact ⟨findNum_proteinTail _, findNum_carbsTail _, findNum_fatTail _⟩

/-! Non-negativity of the extraction pipeline under well-formed goals. -/

theorem orZeroN_nonneg (x : Option ℕ) : 0 ≤ orZeroN x := by
  cases x <;> simp [orZeroN]

theorem derivedKcal_nonneg (p : ParseResult) : 0 ≤ derivedKcal p := by
  unfold derivedKcal
  split
  · exact orZeroN_nonneg _
  · have h1 := orZeroN_nonneg p.protein
    have h2 := orZeroN_nonneg p.carbs
    have h3 := orZeroN_nonneg p.fat
    linarith

theorem finalizeQ_nonneg {q : ℚ} (h : 0 ≤ q) : 0 ≤ finalizeQ q := by
  unfold finalizeQ
  split
  · exact le_refl 0
  · exact jsRound_nonneg h

theorem finalizeO_natCastO (x : Option ℕ) : 0 ≤ finalizeO (natCastO x) := by
  cases x with
  | none => simp [finalizeO, natCastO]
  | some n =>
      simp only [natCastO, Option.map_some, finalizeO]
      exact finalizeQ_nonneg (by positivity)

theorem jsOr_kcal_pos {g : Goals} (hk : 0 ≤ g.kcal) : 0 < jsOr g.kcal 2000 := by
  unfold jsOr
  split
  · norm_num
  · rename_i h
    exact lt_of_le_of_ne hk (Ne.symm h)

theorem extractCompute_nonneg (p : ParseResult) (g : Goals)
    (hp : 0 ≤ g.proteinG) (hc : 0 ≤ g.carbsG) (hf : 0 ≤ g.fatG)
    (hk : 0 ≤ g.kcal)
    (hfit : 4 * g.proteinG + 9 * g.fatG ≤ jsOr g.kcal 2000) :
    0 ≤ (extractCompute p g).kcal ∧ 0 ≤ (extractCompute p g).protein ∧
      0 ≤ (extractCompute p g).carbs ∧ 0 ≤ (extractCompute p g).fat := by
  have htot : 0 < jsOr g.kcal 2000 := jsOr_kcal_pos hk
  have hk0 : (0 : ℚ) ≤ orZeroN p.kcal := orZeroN_nonneg _
  unfold extractCompute
  split
  · -- branch 1: lone kcal, macros split by goal shares
    dsimp only
    simp only [jsOr_zero]
    refine ⟨finalizeQ_nonneg hk0, ?_, ?_, ?_⟩
    all_goals
      simp only [finalizeO]
      apply finalizeQ_nonneg
      apply Int.cast_nonneg.mpr
      apply jsRound_nonneg
      apply div_nonneg _ (by norm_num)
      apply mul_nonneg hk0
      apply div_nonneg _ (le_of_lt htot)
    · linarith
    · linarith
    · linarith
  · dsimp only
    split
    · -- partial-macro distribution block reached
      split
      · -- goalSum > 0: missing macros back-filled from goal shares
        rename_i hsum
        dsimp only
        simp only [jsOr_zero] at hsum ⊢
        have hrem : (0 : ℚ) ≤ max 0 (derivedKcal p -
            (orZeroN p.protein * 4 + orZeroN p.carbs * 4 +
              orZeroN p.fat * 9)) := le_max_left _ _
        refine ⟨finalizeQ_nonneg (derivedKcal_nonneg p), ?_, ?_, ?_⟩
        · split
          · simp only [finalizeO]
            apply finalizeQ_nonneg
            apply Int.cast_nonneg.mpr
            apply jsRound_nonneg
            apply div_nonneg _ (by norm_num)
            apply mul_nonneg hrem
            apply div_nonneg (by linarith) (le_of_lt hsum)
          · exact finalizeO_natCastO _
        · split
          · simp only [finalizeO]
            apply finalizeQ_nonneg
            apply Int.cast_nonneg.mpr
            apply jsRound_nonneg
            apply div_nonneg _ (by norm_num)
            apply mul_nonneg hrem
            apply div_nonneg (by linarith) (le_of_lt hsum)
          · exact finalizeO_natCastO _
        · split
          · simp only [finalizeO]
            apply finalizeQ_nonneg
            apply Int.cast_nonneg.mpr
            apply jsRound_nonneg
            apply div_nonneg _ (by norm_num)
            apply mul_nonneg hrem
            apply div_nonneg (by linarith) (le_of_lt hsum)
          · exact finalizeO_natCastO _
      · exact ⟨finalizeQ_nonneg (derivedKcal_nonneg p),
          finalizeO_natCastO _, finalizeO_natCastO _, finalizeO_natCastO _⟩
    · exact ⟨finalizeQ_nonneg (derivedKcal_nonneg p),
        finalizeO_natCastO _, finalizeO_natCastO _, finalizeO_natCastO _⟩

/-- The goal decomposition `4*round(k/16) + 9*round(k/36) ≤ k` that backs
the macro invariant when protein is derived from the calorie budget. -/
theorem quarter_split (k : ℤ) (hk : 0 ≤ k) :
    4 * jsRound ((k : ℚ) * (1/4) / 4) + 9 * jsRound ((k : ℚ) * (1/4) / 9)
      ≤ k := by
  rcases lt_or_le k 13 with hlt | hge
  · interval_cases k <;> norm_num [jsRound]
  · have h1 := jsRound_le ((k : ℚ) * (1/4) / 4)
    have h2 := jsRound_le ((k : ℚ) * (1/4) / 9)
    have : ((4 * jsRound ((k : ℚ) * (1/4) / 4) +
        9 * jsRound ((k : ℚ) * (1/4) / 9) : ℤ) : ℚ) ≤ (k : ℚ) := by
      push_cast
      have hkq : (13 : ℚ) ≤ (k : ℚ) := by exact_mod_cast hge
      linarith
    exact_mod_cast this


theorem actMultModerate : activityMultiplier "Moderate" = 31/20 := by
  have h : lowerStr "Moderate".toList = "moderate".toList := by decide
  simp only [activityMultiplier]
  rw [h, if_neg (by decide), if_neg (by decide), if_pos rfl]

theorem effBMR_default : effBMR defaultProfile = 1618 := by
  norm_num [defaultProfile, effBMR, computeBMR, numOr, jsRound]

theorem goalKcal_default : goalKcal defaultProfile = 2508 := by
  rw [goalKcal, effBMR_default]
  show jsRound ((1618 : ℚ) * activityMultiplier "Moderate") = 2508
  rw [actMultModerate]
  norm_num [jsRound]

theorem goalProteinG_default : goalProteinG defaultProfile = 157 := by
  rw [goalProteinG, if_neg (by decide), goalKcal_default]
  norm_num [jsRound]

theorem goalFatG_default : goalFatG defaultProfile = 70 := by
  rw [goalFatG, goalKcal_default]
  norm_num [jsRound]

theorem goalCarbsG_default : goalCarbsG defaultProfile = 313 := by
  rw [goalCarbsG]
  simp only [goalKcal_default, goalProteinG_default, goalFatG_default]
  norm_num [jsRound]

theorem effBMR_extremeAge : effBMR extremeAgeProfile = -232 := by
  norm_num [extremeAgeProfile, effBMR, computeBMR, numOr, jsRound]

theorem goalKcal_extremeAge : goalKcal extremeAgeProfile = -360 := by
  rw [goalKcal, effBMR_extremeAge]
  show jsRound ((-232 : ℤ) * activityMultiplier "Moderate") = -360
  rw [actMultModerate]
  norm_num [jsRound]

theorem effBMR_heavyOld : effBMR heavyOldProfile = 368 := by
  norm_num [heavyOldProfile, effBMR, computeBMR, numOr, jsRound]

theorem goalKcal_heavyOld : goalKcal heavyOldProfile = 570 := by
  rw [goalKcal, effBMR_heavyOld]
  show jsRound ((368 : ℚ) * activityMultiplier "Moderate") = 570
  rw [actMultModerate]
  norm_num [jsRound]

theorem goalProteinG_heavyOld : goalProteinG heavyOldProfile = 112 := by
  rw [goalProteinG, if_pos (by decide)]
  norm_num [heavyOldProfile, Option.getD, jsRound]

theorem goalFatG_heavyOld : goalFatG heavyOldProfile = 16 := by
  rw [goalFatG, goalKcal_heavyOld]
  norm_num [jsRound]


/-! Claim theorems.  Each theorem settles one claim of the specification
against the embedded code. -/

/-- C1: the claim says `extractNutrients` returns null for non-empty text
with no calorie and no gram pattern, and never returns a record for such
text.  The code does the opposite: `parseNutrientsFromText` returns a
record of four nulls (so the "Could not parse" error branch of
`parseAndAddFromText` is dead code for non-empty text) and the pipeline
then produces an all-zero record, which is logged.  This theorem evaluates
the code at the failing input "hello". -/
theorem C1_unparseable_text_yields_record :
    parseNutrientsFromText ("hello".toList) =
      some ⟨none, none, none, none⟩ ∧
    extractNutrients ("hello".toList) sampleGoals = some ⟨0, 0, 0, 0⟩ := by
  constructor
  · decide
  · have hp : parseNutrientsFromText ("hello".toList) =
        some ⟨none, none, none, none⟩ := by decide
    unfold extractNutrients
    rw [if_neg (by decide), hp]
    norm_num [extractCompute, branch1Cond, truthyN, orZeroN, derivedKcal,
      missingGuard, jsOr, finalizeQ, finalizeO, natCastO, jsRound]

/-- C2 counterexample: for the input "30g protein" the claim expects
kcal = 120 and carbs = fat = 0, but all three macro regexes match "30g"
(their keyword suffixes are optional), so the parser records
protein = carbs = fat = 30 and derives kcal = 30*4 + 30*4 + 30*9 = 510. -/
theorem C2_counterexample :
    extractNutrients ("30g protein".toList) sampleGoals =
      some ⟨510, 30, 30, 30⟩ ∧ (510 : ℤ) ≠ 120 ∧ (30 : ℤ) ≠ 0 := by
  refine ⟨?_, by norm_num, by norm_num⟩
  have hp : parseNutrientsFromText ("30g protein".toList) =
      some ⟨none, some 30, some 30, some 30⟩ := by decide
  unfold extractNutrients
  rw [if_neg (by decide), hp]
  norm_num [extractCompute, branch1Cond, truthyN, orZeroN, derivedKcal,
    missingGuard, jsOr, finalizeQ, finalizeO, natCastO, jsRound, sampleGoals]

/-- C2 amended: for the input "30g protein" with any goals, the extraction
pipeline returns kcal = 510 and protein = carbs = fat = 30, because the
three macro regexes all capture the leftmost "30g" and Step 3 sums all
three recorded macros; no goal-share back-fill occurs. -/
theorem C2_amended (g : Goals) :
    extractNutrients ("30g protein".toList) g = some ⟨510, 30, 30, 30⟩ := by
  have hp : parseNutrientsFromText ("30g protein".toList) =
      some ⟨none, some 30, some 30, some 30⟩ := by decide
  unfold extractNutrients
  rw [if_neg (by decide), hp]
  norm_num [extractCompute, branch1Cond, truthyN, orZeroN, derivedKcal,
    missingGuard, jsOr, finalizeQ, finalizeO, natCastO, jsRound]

/-- Witness for C2 amended at a concrete goals value. -/
theorem C2_amended_witness :
    extractNutrients ("30g protein".toList) ⟨1800, 120, 180, 50⟩ =
      some ⟨510, 30, 30, 30⟩ := C2_amended ⟨1800, 120, 180, 50⟩

/-- C3 counterexample: with user-overridden goals whose protein and fat
calories (400*4 + 100*9 = 2500) exceed the 2000 kcal goal, the lone-kcal
branch computes a negative carbs ratio and the pipeline returns a record
with carbs = -26 < 0; the final normalization does not clamp negatives. -/
theorem C3_counterexample :
    extractNutrients ("420 kcal".toList) skewedGoals =
      some ⟨420, 84, -26, 21⟩ ∧ (-26 : ℤ) < 0 := by
  refine ⟨?_, by norm_num⟩
  have hp : parseNutrientsFromText ("420 kcal".toList) =
      some ⟨some 420, none, none, none⟩ := by decide
  unfold extractNutrients
  rw [if_neg (by decide), hp]
  norm_num [extractCompute, branch1Cond, truthyN, orZeroN, derivedKcal,
    missingGuard, jsOr, finalizeQ, finalizeO, natCastO, jsRound, skewedGoals]

/-- C3 amended: for every text and goals, the pipeline returns null or a
record of four integers, and the integers are all non-negative provided
the goals fields are non-negative and the goals' protein and fat calories
fit within the effective calorie goal `jsOr goals.kcal 2000`. -/
theorem C3_amended (s : List Char) (g : Goals) (r : NutrientRecord)
    (hp : 0 ≤ g.proteinG) (hc : 0 ≤ g.carbsG) (hf : 0 ≤ g.fatG)
    (hk : 0 ≤ g.kcal)
    (hfit : 4 * g.proteinG + 9 * g.fatG ≤ jsOr g.kcal 2000)
    (hr : extractNutrients s g = some r) :
    0 ≤ r.kcal ∧ 0 ≤ r.protein ∧ 0 ≤ r.carbs ∧ 0 ≤ r.fat := by
  unfold extractNutrients at hr
  split at hr
  · exact absurd hr (by simp)
  · cases hq : parseNutrientsFromText s with
    | none => rw [hq] at hr; exact absurd hr (by simp)
    | some p =>
        rw [hq, Option.some_inj] at hr
        subst hr
        exact extractCompute_nonneg p g hp hc hf hk hfit

/-- Witness for C3 amended at the input "420 kcal" with the sample goals. -/
theorem C3_amended_witness :
    0 ≤ (⟨420, 32, 47, 12⟩ : NutrientRecord).kcal ∧
      0 ≤ (⟨420, 32, 47, 12⟩ : NutrientRecord).protein ∧
      0 ≤ (⟨420, 32, 47, 12⟩ : NutrientRecord).carbs ∧
      0 ≤ (⟨420, 32, 47, 12⟩ : NutrientRecord).fat :=
  C3_amended ("420 kcal".toList) sampleGoals ⟨420, 32, 47, 12⟩
    (by norm_num [sampleGoals]) (by norm_num [sampleGoals])
    (by norm_num [sampleGoals]) (by norm_num [sampleGoals])
    (by norm_num [sampleGoals, jsOr])
    (by
      have hq : parseNutrientsFromText ("420 kcal".toList) =
          some ⟨some 420, none, none, none⟩ := by decide
      unfold extractNutrients
      rw [if_neg (by decide), hq]
      norm_num [extractCompute, branch1Cond, truthyN, orZeroN, derivedKcal,
        missingGuard, jsOr, finalizeQ, finalizeO, natCastO, jsRound,
        sampleGoals])

/-- C4: for the text "420 kcal" with goals {2000, 150, 200, 56}, the
extractor splits 420 kcal by the goal macro-calorie shares (0.30 protein,
0.252 fat, 0.448 carbs) and returns exactly protein = 32 g, carbs = 47 g,
fat = 12 g, which is within the claimed one-gram rounding tolerance of the
expected 32/47/12. -/
theorem C4_lone_kcal_split_by_goal_shares :
    extractNutrients ("420 kcal".toList) sampleGoals =
      some ⟨420, 32, 47, 12⟩ := by
  have hp : parseNutrientsFromText ("420 kcal".toList) =
      some ⟨some 420, none, none, none⟩ := by decide
  unfold extractNutrients
  rw [if_neg (by decide), hp]
  norm_num [extractCompute, branch1Cond, truthyN, orZeroN, derivedKcal,
    missingGuard, jsOr, finalizeQ, finalizeO, natCastO, jsRound, sampleGoals]

/-- C5: adding to a log whose stored date differs from today starts from a
zeroed log stamped with today: the result equals the add on an absent
stored log, and its fields are exactly the rounded fields of the new
record; the stale totals are discarded. -/
theorem C5_rollover_discards_stale (l : TodayLog) (today : String)
    (r : AddArgs) (h : l.dateIso ≠ today) :
    addToTodayLog (some l) today r = addToTodayLog none today r ∧
    addToTodayLog (some l) today r =
      ⟨today, ((jsRound r.kcal : ℤ) : ℚ), ((jsRound r.protein : ℤ) : ℚ),
        ((jsRound r.carbs : ℤ) : ℚ), ((jsRound r.fat : ℤ) : ℚ)⟩ := by
  have hload : loadTodayLog (some l) today = zeroLog today := by
    simp only [loadTodayLog]
    rw [if_pos h]
  constructor
  · unfold addToTodayLog
    rw [hload]
    simp only [loadTodayLog]
  · unfold addToTodayLog
    rw [hload]
    simp only [zeroLog, jsOr_zero, zero_add]

/-- Witness for C5 at a log dated one day earlier than today. -/
theorem C5_witness :
    addToTodayLog (some ⟨"2025-06-01", 500, 30, 40, 10⟩) "2025-06-02"
        ⟨100, 10, 20, 5⟩ = ⟨"2025-06-02", 100, 10, 20, 5⟩ := by
  have h := C5_rollover_discards_stale ⟨"2025-06-01", 500, 30, 40, 10⟩
    "2025-06-02" ⟨100, 10, 20, 5⟩ (by decide)
  rw [h.2]
  norm_num [jsRound, TodayLog.mk.injEq]

/-- C6 counterexample: the profile with stated weight 70, height 170 and
age 400 gives a negative Mifflin-St Jeor value (round(-232.5) = -232),
so the estimated calorie goal is round(-232 * 1.55) = -360, which is not
positive; the claim fails for extreme ages. -/
theorem C6_counterexample :
    (estimateGoalsFromProfile extremeAgeProfile).kcal = -360 ∧
      ¬(0 < (estimateGoalsFromProfile extremeAgeProfile).kcal) := by
  have h : (estimateGoalsFromProfile extremeAgeProfile).kcal =
      ((-360 : ℤ) : ℚ) := by
    show ((goalKcal extremeAgeProfile : ℤ) : ℚ) = ((-360 : ℤ) : ℚ)
    rw [goalKcal_extremeAge]
  rw [h]
  norm_num

/-- C6 amended: for every profile whose stated weight (when stated) is
positive and whose effective BMR (after the `|| 1500` fallback) is
positive -- in particular every reasonable profile -- the estimated goals
have kcal > 0 and four non-negative integer fields. -/
theorem C6_amended (p : Profile)
    (hw : ∀ w, p.weightKg = some w → 0 < w)
    (hb : 0 < effBMR p) :
    0 < (estimateGoalsFromProfile p).kcal ∧
      0 ≤ (estimateGoalsFromProfile p).proteinG ∧
      0 ≤ (estimateGoalsFromProfile p).carbsG ∧
      0 ≤ (estimateGoalsFromProfile p).fatG ∧
      (estimateGoalsFromProfile p).kcal.den = 1 ∧
      (estimateGoalsFromProfile p).proteinG.den = 1 ∧
      (estimateGoalsFromProfile p).carbsG.den = 1 ∧
      (estimateGoalsFromProfile p).fatG.den = 1 := by
  have hkcal : 1 ≤ goalKcal p := by
    rw [goalKcal]
    apply jsRound_one_le
    have h1 : (1 : ℚ) ≤ ((effBMR p : ℤ) : ℚ) := by exact_mod_cast hb
    have h2 := activityMultiplier_lb p.activity
    have h3 := mul_le_mul h1 h2 (by norm_num) (by linarith)
    linarith
  have hkq : (0 : ℚ) ≤ ((goalKcal p : ℤ) : ℚ) := by
    have h0 : (0 : ℤ) ≤ goalKcal p := by linarith
    exact_mod_cast h0
  have hP : 0 ≤ goalProteinG p := by
    rw [goalProteinG]
    split
    · rename_i ht
      cases hwk : p.weightKg with
      | none => rw [hwk] at ht; simp [truthyQ] at ht
      | some w =>
          have hw0 := hw w hwk
          simp only [Option.getD_some]
          apply jsRound_nonneg
          nlinarith
    · apply jsRound_nonneg
      apply div_nonneg _ (by norm_num)
      exact mul_nonneg hkq (by norm_num)
  have hF : 0 ≤ goalFatG p := by
    rw [goalFatG]
    apply jsRound_nonneg
    apply div_nonneg _ (by norm_num)
    exact mul_nonneg hkq (by norm_num)
  have hC : 0 ≤ goalCarbsG p := by
    rw [goalCarbsG]
    split
    · rename_i hrem
      apply jsRound_nonneg
      have h0 : (0 : ℚ) ≤
          ((goalKcal p - goalProteinG p * 4 - goalFatG p * 9 : ℤ) : ℚ) := by
        exact_mod_cast le_of_lt hrem
      exact div_nonneg h0 (by norm_num)
    · apply jsRound_nonneg
      apply div_nonneg _ (by norm_num)
      exact mul_nonneg hkq (by norm_num)
  refine ⟨?_, ?_, ?_, ?_, ?_, ?_, ?_, ?_⟩ <;>
    simp only [estimateGoalsFromProfile]
  · exact_mod_cast lt_of_lt_of_le Int.zero_lt_one hkcal
  · exact_mod_cast hP
  · exact_mod_cast hC
  · exact_mod_cast hF
  · exact Rat.den_intCast _
  · exact Rat.den_intCast _
  · exact Rat.den_intCast _
  · exact Rat.den_intCast _

/-- Witness for C6 amended at the all-defaults profile
(goals 2508 kcal, 157 g protein, 313 g carbs, 70 g fat). -/
theorem C6_witness :
    0 < (estimateGoalsFromProfile defaultProfile).kcal ∧
      0 ≤ (estimateGoalsFromProfile defaultProfile).proteinG ∧
      0 ≤ (estimateGoalsFromProfile defaultProfile).carbsG ∧
      0 ≤ (estimateGoalsFromProfile defaultProfile).fatG ∧
      (estimateGoalsFromProfile defaultProfile).kcal.den = 1 ∧
      (estimateGoalsFromProfile defaultProfile).proteinG.den = 1 ∧
      (estimateGoalsFromProfile defaultProfile).carbsG.den = 1 ∧
      (estimateGoalsFromProfile defaultProfile).fatG.den = 1 :=
  C6_amended defaultProfile
    (fun w hw => absurd hw (by simp [defaultProfile]))
    (by rw [effBMR_default]; norm_num)

/-- C7 counterexample: for the profile with weight 70, no height and age
280, the goals are kcal = 570, protein = 112 g, fat = 16 g, and
112*4 + 16*9 = 592 > 570: the claimed invariant fails. -/
theorem C7_counterexample :
    ¬((estimateGoalsFromProfile heavyOldProfile).proteinG * 4 +
        (estimateGoalsFromProfile heavyOldProfile).fatG * 9 ≤
          (estimateGoalsFromProfile heavyOldProfile).kcal) := by
  simp only [estimateGoalsFromProfile, goalProteinG_heavyOld,
    goalFatG_heavyOld, goalKcal_heavyOld]
  norm_num

/-- C7 amended: the invariant proteinG*4 + fatG*9 <= kcal holds for
profiles whose estimated kcal is non-negative and, when a weight is
stated, positive with kcal at least 9*(weight+1) -- roughly whenever the
calorie target covers the bodyweight-derived protein; all values are
integers by construction.  Extreme profiles (see the counterexample)
violate the unconditional claim. -/
theorem C7_amended (p : Profile)
    (hw : ∀ w, p.weightKg = some w →
      0 < w ∧ 9 * (w + 1) ≤ ((goalKcal p : ℤ) : ℚ))
    (hk : 0 ≤ goalKcal p) :
    (estimateGoalsFromProfile p).proteinG * 4 +
      (estimateGoalsFromProfile p).fatG * 9 ≤
        (estimateGoalsFromProfile p).kcal := by
  have main : goalProteinG p * 4 + goalFatG p * 9 ≤ goalKcal p := by
    rw [goalProteinG, goalFatG]
    split
    · rename_i ht
      cases hwk : p.weightKg with
      | none => rw [hwk] at ht; simp [truthyQ] at ht
      | some w =>
          obtain ⟨hw0, hwb⟩ := hw w hwk
          simp only [Option.getD_some]
          have h1 := jsRound_le (w * (8/5))
          have h2 := jsRound_le ((goalKcal p : ℚ) * (1/4) / 9)
          have hcast : ((jsRound (w * (8/5)) * 4 +
              jsRound ((goalKcal p : ℚ) * (1/4) / 9) * 9 : ℤ) : ℚ) ≤
                ((goalKcal p : ℤ) : ℚ) := by
            push_cast
            linarith
          exact_mod_cast hcast
    · have hq := quarter_split (goalKcal p) hk
      linarith
  simp only [estimateGoalsFromProfile]
  exact_mod_cast main

/-- Witness for C7 amended at the all-defaults profile
(157*4 + 70*9 = 1258 <= 2508). -/
theorem C7_witness :
    (estimateGoalsFromProfile defaultProfile).proteinG * 4 +
      (estimateGoalsFromProfile defaultProfile).fatG * 9 ≤
        (estimateGoalsFromProfile defaultProfile).kcal :=
  C7_amended defaultProfile
    (fun w hw => absurd hw (by simp [defaultProfile]))
    (by rw [goalKcal_default]; norm_num)

/-- C8: two same-day adds with kcal 100 and 50 starting from a zeroed log
accumulate to kcal = 150, and each macro field is the sum of the two
records' integer values for that field. -/
theorem C8_same_day_accumulates (d : String) (p1 c1 f1 p2 c2 f2 : ℤ) :
    addToTodayLog (some (addToTodayLog none d
        ⟨100, (p1 : ℚ), (c1 : ℚ), (f1 : ℚ)⟩)) d
      ⟨50, (p2 : ℚ), (c2 : ℚ), (f2 : ℚ)⟩ =
    ⟨d, 150, ((p1 + p2 : ℤ) : ℚ), ((c1 + c2 : ℤ) : ℚ),
      ((f1 + f2 : ℤ) : ℚ)⟩ := by
  have hinner : addToTodayLog none d ⟨100, (p1 : ℚ), (c1 : ℚ), (f1 : ℚ)⟩ =
      ⟨d, ((100 : ℤ) : ℚ), ((p1 : ℤ) : ℚ), ((c1 : ℤ) : ℚ),
        ((f1 : ℤ) : ℚ)⟩ := by
    unfold addToTodayLog loadTodayLog
    simp only [zeroLog, jsOr_zero, zero_add, jsRound_intCast]
    norm_num [jsRound, TodayLog.mk.injEq]
  rw [hinner]
  unfold addToTodayLog
  simp only [loadTodayLog]
  rw [if_neg (by simp)]
  simp only [jsOr_zero]
  rw [show ((100 : ℤ) : ℚ) + (50 : ℚ) = ((150 : ℤ) : ℚ) by norm_num,
    show ((p1 : ℤ) : ℚ) + (p2 : ℚ) = ((p1 + p2 : ℤ) : ℚ) by push_cast; ring,
    show ((c1 : ℤ) : ℚ) + (c2 : ℚ) = ((c1 + c2 : ℤ) : ℚ) by push_cast; ring,
    show ((f1 : ℤ) : ℚ) + (f2 : ℚ) = ((f1 + f2 : ℤ) : ℚ) by push_cast; ring,
    jsRound_intCast, jsRound_intCast, jsRound_intCast, jsRound_intCast]
  norm_num [TodayLog.mk.injEq]

/-- Witness for C8 at concrete macro values. -/
theorem C8_witness :
    addToTodayLog (some (addToTodayLog none "2025-06-01"
        ⟨100, 10, 20, 5⟩)) "2025-06-01" ⟨50, 20, 30, 10⟩ =
      ⟨"2025-06-01", 150, 30, 50, 15⟩ := by
  have h := C8_same_day_accumulates "2025-06-01" 10 20 5 20 30 10
  norm_num at h
  exact h

/-- C9: for every input text accepted by the parser, the three macro
fields agree pairwise and each equals the value of the leftmost
`(\d{1,4})\s?g` match of the lowercased text: the keyword suffixes of the
three macro regexes are optional and never change the capture, so a
trailing keyword such as "fat" cannot make the fields differ. -/
theorem C9_macro_fields_agree (s : List Char) (p : ParseResult)
    (h : parseNutrientsFromText s = some p) :
    p.protein = p.carbs ∧ p.carbs = p.fat ∧
      p.protein = leftmostGram (lowerStr s) := by
  obtain ⟨h1, h2, h3⟩ := parse_macros_eq_leftmostGram s p h
  exact ⟨h1.trans h2.symm, h2.trans h3.symm, h1⟩

/-- Witness for C9 at the input "10g fat". -/
theorem C9_witness :
    (some 10 : Option ℕ) = leftmostGram (lowerStr ("10g fat".toList)) :=
  (C9_macro_fields_agree ("10g fat".toList) ⟨none, some 10, some 10, some 10⟩
    (by decide)).2.2

/-- C10: the partial-macro distribution block is unreachable.  For every
parsed text, whenever the first branch of the pipeline is not taken,
either all three parsed macros are non-null, or all are null and the
derived kcal is 0; in both cases the distribution guard is false, so the
back-fill assignments never execute. -/
theorem C10_distribution_unreachable (s : List Char) (p : ParseResult)
    (h : parseNutrientsFromText s = some p)
    (hb : branch1Cond p = false) :
    missingGuard p = false ∧
      ((p.protein.isSome ∧ p.carbs.isSome ∧ p.fat.isSome) ∨
        (p.protein = none ∧ p.carbs = none ∧ p.fat = none ∧
          derivedKcal p = 0)) := by
  obtain ⟨h1, h2, h3⟩ := parse_macros_eq_leftmostGram s p h
  cases hv : leftmostGram (lowerStr s) with
  | some n =>
      rw [hv] at h1 h2 h3
      constructor
      · simp [missingGuard, h1, h2, h3]
      · exact Or.inl ⟨by simp [h1], by simp [h2], by simp [h3]⟩
  | none =>
      rw [hv] at h1 h2 h3
      have hk : truthyN p.kcal = false := by
        unfold branch1Cond at hb
        rw [h1, h2, h3] at hb
        simpa [truthyN] using hb
      have hd : derivedKcal p = 0 := by
        unfold derivedKcal
        rw [hk, h1, h2, h3]
        norm_num [orZeroN]
      constructor
      · simp [missingGuard, hd]
      · exact Or.inr ⟨h1, h2, h3, hd⟩

/-- Witness for C10 at the digit-free input "hi". -/
theorem C10_witness :
    missingGuard ⟨none, none, none, none⟩ = false ∧
      (((⟨none, none, none, none⟩ : ParseResult).protein.isSome ∧
          (⟨none, none, none, none⟩ : ParseResult).carbs.isSome ∧
          (⟨none, none, none, none⟩ : ParseResult).fat.isSome) ∨
        ((⟨none, none, none, none⟩ : ParseResult).protein = none ∧
          (⟨none, none, none, none⟩ : ParseResult).carbs = none ∧
          (⟨none, none, none, none⟩ : ParseResult).fat = none ∧
          derivedKcal ⟨none, none, none, none⟩ = 0)) :=
  C10_distribution_unreachable ("hi".toList) ⟨none, none, none, none⟩
    (by decide) (by decide)


end NutriBuddy
